import Mathlib

/-
Verification of the vnedreid_magnittech ML service (src/ml/main.py and
src/ml/utils.py) against its specification.

Embedding notes.
Python float values are embedded as rationals (Rat); the textual rendering
of a numeric list inside the prompt string abstracts the exact Python float
formatting but keeps the list structure.  The Ollama chat client is an
external collaborator: the handler is parameterised by a pure oracle of type
Chat, and an instrumented variant of the handler additionally records every
outbound chat call so that call-counting and call-shape properties can be
stated.  Exceptions that the handler can observe from the chat call are the
three kinds named in its except clause plus a fourth constructor for every
other exception.
-/

/-- Request schema of the endpoint, from class MetricsRequest in
src/ml/main.py lines 9-15.  All six fields are required. -/
structure MetricsRequest where
  cluster : String
  pod : String
  cpu_data : List Rat
  ram_data : List Rat
  cpu_cost : Rat
  ram_cost : Rat
deriving DecidableEq, Repr

/-- A role-tagged message sent to the chat client, as in the messages list of
src/ml/main.py lines 40-41. -/
structure ChatMessage where
  role : String
  content : String
deriving DecidableEq, Repr

/-- The message part of a chat reply; response.message.content is read in
src/ml/main.py line 46. -/
structure ResponseMessage where
  content : String
deriving DecidableEq, Repr

/-- A chat reply object exposing the reply message. -/
structure ChatResponse where
  message : ResponseMessage
deriving DecidableEq, Repr

/-- The exceptions the chat call can raise, as observed by the handler.  The
first three constructors are exactly the kinds named in the except clause of
src/ml/main.py lines 42-44 (ConnectionError, ollama.ResponseError,
httpx.RemoteProtocolError); the fourth stands for every other exception. -/
inductive OllamaError where
  | connectionError (msg : String)
  | responseError (msg : String)
  | remoteProtocolError (msg : String)
  | other (msg : String)
deriving DecidableEq, Repr

/-- The text of an exception, as Python string interpolation renders it. -/
def OllamaError.text : OllamaError → String
  | .connectionError m => m
  | .responseError m => m
  | .remoteProtocolError m => m
  | .other m => m

/-- Whether an exception is matched by the except clause of
src/ml/main.py lines 42-44. -/
def OllamaError.isCaught : OllamaError → Bool
  | .connectionError _ => true
  | .responseError _ => true
  | .remoteProtocolError _ => true
  | .other _ => false

/-- A chat oracle: the behaviour of client.chat, taking the model identifier
and the message list and either returning a reply or raising. -/
def Chat : Type := String → List ChatMessage → Except OllamaError ChatResponse

/-- One outbound chat call: the model identifier and message list passed. -/
def ChatCall : Type := String × List ChatMessage

/-- The success body returned by the handler in src/ml/main.py line 47:
an object with the single field recommendation. -/
structure RecResponse where
  recommendation : String
deriving DecidableEq, Repr

/-- Outcome of one handler invocation: a 200 success body, an HTTPException
with a status code and detail (src/ml/main.py line 45), or an exception that
the handler does not catch and lets propagate. -/
inductive HandlerResult where
  | success (body : RecResponse)
  | httpError (status : Nat) (detail : String)
  | unhandled (message : String)
deriving DecidableEq, Repr

/-- HTTP status of a handler outcome: FastAPI sends 200 for a plain return,
the carried status for an HTTPException, and no status chosen by application
code for an exception that propagates. -/
def httpStatus : HandlerResult → Option Nat
  | .success _ => some 200
  | .httpError s _ => some s
  | .unhandled _ => none

/-- preprocess_metrics from src/ml/utils.py lines 3-8: the placeholder
preprocessing step, returning both series unchanged. -/
def preprocess_metrics (cpu_data ram_data : List Rat) :
    List Rat × List Rat :=
  (cpu_data, ram_data)

/-- Rendering of a numeric list inside an f-string, as in the CPU and RAM
lines of the prompt (src/ml/main.py lines 34-35).  The exact Python float
formatting is abstracted to the rational rendering. -/
def renderData (xs : List Rat) : String :=
  "[" ++ String.intercalate ", " (xs.map toString) ++ "]"

/-- The prompt string built in src/ml/main.py lines 32-37, after the series
have gone through preprocess_metrics (line 31). -/
def requestPrompt (request : MetricsRequest) : String :=
  let pr := preprocess_metrics request.cpu_data request.ram_data
  "\nПроанализируй текущие значения загрузки для пода " ++ request.pod ++
    " в кластере " ++ request.cluster ++
    ":\n - CPU: " ++ renderData pr.1 ++
    "\n - RAM: " ++ renderData pr.2 ++
    "\nУкажи, что не так с подами и предложи, что можно сделать для исправления.\nОтвечай краткою"

/-- The fixed system message of src/ml/main.py line 40. -/
def systemMessage : ChatMessage :=
  ⟨"system", "Ты эксперт по оптимизации Kubernetes-кластеров."⟩

/-- The message list passed to client.chat in src/ml/main.py lines 40-41:
the system message followed by one user message holding the prompt. -/
def requestMessages (request : MetricsRequest) : List ChatMessage :=
  [systemMessage, ⟨"user", requestPrompt request⟩]

/-- The fixed model identifier of src/ml/main.py line 39. -/
def modelId : String := "gemma3:12b"

/-- The handler get_llm_rec of src/ml/main.py lines 29-47, instrumented:
besides its outcome it returns the list of outbound chat calls it performed.
The body makes exactly one call, with the fixed model identifier and the
two-message list; a reply becomes the one-field success body, an exception
matched by the except clause becomes a 502 HTTPException whose detail embeds
the exception text, and any other exception propagates. -/
def get_llm_rec_aux (chat : Chat) (request : MetricsRequest) :
    HandlerResult × List ChatCall :=
  let result : HandlerResult :=
    match chat modelId (requestMessages request) with
    | .error e =>
        if e.isCaught then .httpError 502 ("Ollama error: " ++ e.text)
        else .unhandled e.text
    | .ok response => .success ⟨response.message.content⟩
  (result, [(modelId, requestMessages request)])

/-- The outcome of the handler get_llm_rec for a given chat behaviour. -/
def get_llm_rec (chat : Chat) (request : MetricsRequest) : HandlerResult :=
  (get_llm_rec_aux chat request).1

/-- Claim C3: preprocess_metrics is the identity on every pair of numeric
lists, of any lengths including empty, with no error outcome. -/
theorem preprocess_metrics_id (cpu_data ram_data : List Rat) :
    preprocess_metrics cpu_data ram_data = (cpu_data, ram_data) := rfl

/-- Claim C1: whenever the chat call returns a reply whose message content is
R, the handler returns the 200 success outcome whose body is exactly the
one-field object with recommendation R, R unmodified. -/
theorem get_llm_rec_success (chat : Chat) (request : MetricsRequest)
    (R : String)
    (h : chat modelId (requestMessages request) = .ok ⟨⟨R⟩⟩) :
    get_llm_rec chat request = .success ⟨R⟩ ∧
      httpStatus (get_llm_rec chat request) = some 200 := by
  unfold get_llm_rec get_llm_rec_aux
  rw [h]
  exact ⟨rfl, rfl⟩

/-- Chat stub returning the fixed reply used by the specification scenario. -/
def stubChat : Chat := fun _ _ => .ok ⟨⟨"Scale down pod"⟩⟩

/-- The concrete request of the specification scenario. -/
def sampleRequest : MetricsRequest :=
  ⟨"prod", "web-1", [10, 20, 30], [40, 50, 60], 1/10, 1/5⟩

/-- Witness for claim C1 at the specification scenario. -/
theorem get_llm_rec_success_witness :
    get_llm_rec stubChat sampleRequest = .success ⟨"Scale down pod"⟩ ∧
      httpStatus (get_llm_rec stubChat sampleRequest) = some 200 :=
  get_llm_rec_success stubChat sampleRequest "Scale down pod" rfl

/-- Claim C2: whenever the chat call raises an exception, the handler turns
it into the 502 HTTPException whose detail is the text Ollama error:
followed by the exception text exactly when the exception is one of the
three kinds named in the except clause, and in no other case does it
produce an HTTPException. -/
theorem get_llm_rec_upstream_error (chat : Chat) (request : MetricsRequest)
    (e : OllamaError)
    (h : chat modelId (requestMessages request) = .error e) :
    (e.isCaught = true →
      get_llm_rec chat request =
        .httpError 502 ("Ollama error: " ++ e.text)) ∧
    (e.isCaught = false →
      ∀ s d, get_llm_rec chat request ≠ .httpError s d) := by
  unfold get_llm_rec get_llm_rec_aux
  rw [h]
  constructor
  · intro hc
    simp [hc]
  · intro hc s d
    simp [hc]

/-- Chat stub raising a connection failure, as in the specification test. -/
def connFailChat : Chat := fun _ _ =>
  .error (.connectionError "Connection refused")

/-- Witness for claim C2: a stub raising a connection failure yields the
502 outcome with the embedded error text. -/
theorem get_llm_rec_upstream_error_witness :
    get_llm_rec connFailChat sampleRequest =
      .httpError 502 ("Ollama error: " ++ "Connection refused") :=
  (get_llm_rec_upstream_error connFailChat sampleRequest
    (.connectionError "Connection refused") rfl).1 rfl

/-- Claim C7: an exception of any kind other than the three caught ones is
not handled: the handler outcome is the propagating exception itself, never
an HTTPException. -/
theorem get_llm_rec_unhandled (chat : Chat) (request : MetricsRequest)
    (e : OllamaError)
    (h : chat modelId (requestMessages request) = .error e)
    (hc : e.isCaught = false) :
    get_llm_rec chat request = .unhandled e.text ∧
      ∀ s d, get_llm_rec chat request ≠ .httpError s d := by
  unfold get_llm_rec get_llm_rec_aux
  rw [h]
  simp [hc]

/-- Chat stub raising an exception outside the except clause. -/
def otherFailChat : Chat := fun _ _ => .error (.other "boom")

/-- Witness for claim C7 at a stub raising an uncaught exception. -/
theorem get_llm_rec_unhandled_witness :
    get_llm_rec otherFailChat sampleRequest = .unhandled "boom" ∧
      ∀ s d, get_llm_rec otherFailChat sampleRequest ≠ .httpError s d :=
  get_llm_rec_unhandled otherFailChat sampleRequest (.other "boom") rfl rfl

/-- Claim C5: two well-formed requests that agree on cluster, pod, cpu_data
and ram_data, and may differ arbitrarily in cpu_cost and ram_cost, make the
handler build the same prompt, send the same calls to the chat client and
return the same outcome. -/
theorem get_llm_rec_cost_independent (chat : Chat)
    (r₁ r₂ : MetricsRequest)
    (hcl : r₁.cluster = r₂.cluster) (hp : r₁.pod = r₂.pod)
    (hc : r₁.cpu_data = r₂.cpu_data) (hr : r₁.ram_data = r₂.ram_data) :
    get_llm_rec_aux chat r₁ = get_llm_rec_aux chat r₂ := by
  cases r₁
  cases r₂
  simp only at hcl hp hc hr
  subst hcl hp hc hr
  rfl

/-- The specification scenario request with both cost fields changed. -/
def sampleRequestOtherCosts : MetricsRequest :=
  ⟨"prod", "web-1", [10, 20, 30], [40, 50, 60], 7, 9⟩

/-- Witness for claim C5: the scenario request and its cost-modified copy
produce identical instrumented outcomes. -/
theorem get_llm_rec_cost_independent_witness :
    get_llm_rec_aux stubChat sampleRequest =
      get_llm_rec_aux stubChat sampleRequestOtherCosts :=
  get_llm_rec_cost_independent stubChat sampleRequest sampleRequestOtherCosts
    rfl rfl rfl rfl

/-- Claim C6: for every request the handler performs exactly the single chat
call whose model identifier is the fixed one and whose message list is the
system message followed by one user message holding the prompt, where the
prompt interpolates the pod name, the cluster name and the two series after
they went through preprocess_metrics. -/
theorem get_llm_rec_call_shape (chat : Chat) (request : MetricsRequest) :
    (get_llm_rec_aux chat request).2 =
      [("gemma3:12b",
        [⟨"system", "Ты эксперт по оптимизации Kubernetes-кластеров."⟩,
         ⟨"user",
          "\nПроанализируй текущие значения загрузки для пода " ++
            request.pod ++ " в кластере " ++ request.cluster ++
            ":\n - CPU: " ++
            renderData (preprocess_metrics request.cpu_data request.ram_data).1 ++
            "\n - RAM: " ++
            renderData (preprocess_metrics request.cpu_data request.ram_data).2 ++
            "\nУкажи, что не так с подами и предложи, что можно сделать для исправления.\nОтвечай краткою"⟩])] :=
  rfl

/-- Startup configuration of the chat client.  Fields other than host are
optional: none means the field is not set by application code and the client
library default applies. -/
structure ClientConfig where
  host : String
  headers : Option (List (String × String))
  timeout : Option Rat
  follow_redirects : Option Bool
deriving DecidableEq, Repr

/-- The client built at startup in src/ml/main.py line 26:
Client(host="http://localhost:11434").  Only the host is passed; headers,
timeout and redirect behaviour are not configured there.  The AsyncClient
construction of lines 19-24, which does pass headers, a 60 second timeout
and follow_redirects, is commented out in the source. -/
def client : ClientConfig :=
  ⟨"http://localhost:11434", none, none, none⟩

/-- Counterexample to claim C4: the startup configuration of the live client
sets neither fixed headers, nor a response timeout, nor redirect behaviour. -/
theorem client_config_cex :
    ¬ (client.headers.isSome ∧ client.timeout.isSome ∧
        client.follow_redirects.isSome) := by
  decide

/-- Claim C4 amended: the live client is configured at startup with a host
URL only, and headers, timeout and redirect behaviour are left unset. -/
theorem client_config_host_only :
    client.host = "http://localhost:11434" ∧ client.headers = none ∧
      client.timeout = none ∧ client.follow_redirects = none :=
  ⟨rfl, rfl, rfl, rfl⟩

/-- Process-wide server state: the only module-level value the handler can
reach is the read-only client configuration; the handler body of
src/ml/main.py lines 29-47 assigns no module-level name. -/
structure ServerState where
  config : ClientConfig
deriving DecidableEq, Repr

/-- One request handled by the server: the handler runs on the request and
the process-wide state is untouched, as the handler body performs no
assignment to it. -/
def processRequest (chat : Chat) (s : ServerState)
    (request : MetricsRequest) : ServerState × HandlerResult :=
  (s, get_llm_rec chat request)

/-- Sequential handling of a list of inbound requests, threading the
process-wide state through processRequest. -/
def runServer (chat : Chat) (s : ServerState) :
    List MetricsRequest → ServerState × List HandlerResult
  | [] => (s, [])
  | r :: rs =>
      let step := processRequest chat s r
      let rest := runServer chat step.1 rs
      (rest.1, step.2 :: rest.2)

/-- Claim C9: on every path the handler performs exactly one outbound chat
call, and handling a request leaves the process-wide state unchanged. -/
theorem get_llm_rec_one_call (chat : Chat) (s : ServerState)
    (request : MetricsRequest) :
    (get_llm_rec_aux chat request).2.length = 1 ∧
      (processRequest chat s request).1 = s :=
  ⟨rfl, rfl⟩

/-- Claim C10: issuing the same request twice in sequence against the same
chat behaviour yields two equal responses: no state accumulates between the
two calls. -/
theorem get_llm_rec_idempotent (chat : Chat) (s : ServerState)
    (request : MetricsRequest) :
    ∃ resp, (runServer chat s [request, request]).2 = [resp, resp] :=
  ⟨get_llm_rec chat request, rfl⟩

/-- A JSON value of a request body field, with the shapes the MetricsRequest
schema distinguishes. -/
inductive Json where
  | null
  | str (s : String)
  | num (q : Rat)
  | boolean (b : Bool)
  | arr (xs : List Json)

/-- Look up a field of a JSON object body by name. -/
def getField (body : List (String × Json)) (k : String) : Option Json :=
  (body.find? (fun p => p.1 == k)).map (fun p => p.2)

/-- Read a JSON value as a string, failing on any other shape. -/
def Json.asStr : Json → Option String
  | .str s => some s
  | _ => none

/-- Read a JSON value as a number, failing on any other shape. -/
def Json.asNum : Json → Option Rat
  | .num q => some q
  | _ => none

/-- Read a JSON value as an array of numbers, failing on any other shape or
on any non-numeric element. -/
def Json.asNumList : Json → Option (List Rat)
  | .arr xs => xs.mapM Json.asNum
  | _ => none

/-- Modelled from the spec: the schema validation the web framework performs
on the request body before the handler runs (FastAPI and pydantic are
external collaborators, not part of src/).  Every field of MetricsRequest is
required and must have the declared type; a missing or ill-typed field makes
validation fail. -/
def parseMetricsRequest (body : List (String × Json)) :
    Option MetricsRequest := do
  let cluster ← (getField body "cluster").bind Json.asStr
  let pod ← (getField body "pod").bind Json.asStr
  let cpu_data ← (getField body "cpu_data").bind Json.asNumList
  let ram_data ← (getField body "ram_data").bind Json.asNumList
  let cpu_cost ← (getField body "cpu_cost").bind Json.asNum
  let ram_cost ← (getField body "ram_cost").bind Json.asNum
  pure ⟨cluster, pod, cpu_data, ram_data, cpu_cost, ram_cost⟩

/-- Outcome of the POST route as a whole: a framework validation rejection
or a handler outcome. -/
inductive EndpointResult where
  | validationError (status : Nat)
  | handled (r : HandlerResult)
deriving DecidableEq, Repr

/-- Modelled from the spec: the full route behaviour, validation first, the
handler only on a body that parses, together with the outbound chat calls
performed. -/
def get_llm_rec_endpoint (chat : Chat) (body : List (String × Json)) :
    EndpointResult × List ChatCall :=
  match parseMetricsRequest body with
  | none => (.validationError 422, [])
  | some request =>
      let out := get_llm_rec_aux chat request
      (.handled out.1, out.2)

/-- Claim C8: a request body that fails schema validation is answered with
the 422 validation error and the chat client is never invoked. -/
theorem get_llm_rec_validation (chat : Chat)
    (body : List (String × Json))
    (h : parseMetricsRequest body = none) :
    get_llm_rec_endpoint chat body = (.validationError 422, []) := by
  unfold get_llm_rec_endpoint
  rw [h]

/-- A request body missing the required pod field. -/
def bodyMissingPod : List (String × Json) :=
  [("cluster", .str "prod"),
   ("cpu_data", .arr [.num 10, .num 20, .num 30]),
   ("ram_data", .arr [.num 40, .num 50, .num 60]),
   ("cpu_cost", .num (1/10)),
   ("ram_cost", .num (1/5))]

/-- Witness for claim C8 at a body missing the pod field. -/
theorem get_llm_rec_validation_witness :
    get_llm_rec_endpoint stubChat bodyMissingPod =
      (.validationError 422, []) :=
  get_llm_rec_validation stubChat bodyMissingPod rfl
